import Mathlib

/-!
Shallow embedding of the account-security core of the repository
(`src/api/core/accounts.rs`): KDF policy change (`post_kdf`), account key
rotation (`validate_keydata`, `post_rotatekey`), security-stamp reset
(`post_sstamp`), the device-authorization protocol (`put_auth_request`,
`get_auth_request_response`), and the password-hint anti-enumeration guard
(`password_hint`).  Opaque encrypted blobs, identifiers, stamps and hashes are
modelled as `String`; machine `i32` values as `Int`; the database as explicit
lists of records plus an emitted write trace; fallible handlers return
`Except String` results (the `err!` macro is an early `.error` return).
-/

namespace VW

/-- KDF type code for PBKDF2 (`UserKdfType::Pbkdf2 as i32`). -/
def pbkdf2Kdf : Int := 0

/-- KDF type code for Argon2id (`UserKdfType::Argon2id as i32`). -/
def argon2idKdf : Int := 1

/-- The `User` record, restricted to the fields read or written by the
account-security handlers. -/
structure User where
  uuid : String
  email : String
  password_hash : String
  akey : String
  private_key : Option String
  public_key : Option String
  client_kdf_type : Int
  client_kdf_iter : Int
  client_kdf_memory : Option Int
  client_kdf_parallelism : Option Int
  security_stamp : String
  stamp_exceptions : Option (List String)
  password_hint : Option String
deriving DecidableEq, Repr

/-- A `Device` record: belongs to one user, carries a client type. -/
structure Device where
  uuid : String
  user_uuid : String
  atype : Int
deriving DecidableEq, Repr

/-- Modelled from the spec: the Password/Secret Mutator (§4.2) is
`User::set_password` in `src/db/models/user.rs`, outside the provided sources.
It stores the new hash and (when given) the new encrypted user key, issues a
fresh random security stamp when `resetStamp` is set (the fresh random token is
supplied here as the explicit argument `freshStamp`), and records the
token-kind names whose cached authorization is stale. -/
def User.set_password (u : User) (newHash : String) (newKey : Option String)
    (resetStamp : Bool) (routes : Option (List String)) (freshStamp : String) : User :=
  { u with
    password_hash := newHash
    akey := newKey.getD u.akey
    security_stamp := if resetStamp then freshStamp else u.security_stamp
    stamp_exceptions := routes }

/-- Modelled from the spec: `User::reset_security_stamp` (in
`src/db/models/user.rs`, outside the provided sources) issues a new random
security-stamp value, supplied here as `freshStamp`. -/
def User.reset_security_stamp (u : User) (freshStamp : String) : User :=
  { u with security_stamp := freshStamp }

/-- Modelled from the spec: `User::check_valid_password` (in
`src/db/models/user.rs`, outside the provided sources) is a constant-time
comparison of the supplied hash against the stored password hash; its result
is equality. -/
def User.check_valid_password (u : User) (hash : String) : Bool :=
  u.password_hash == hash

/-- One write committed to the Credential Store (a `save`/`delete` call). -/
inductive DbWrite where
  | saveFolder (uuid : String) (name : String)
  | saveEmergencyAccess (uuid : String) (key_encrypted : String)
  | saveMembership (org_uuid : String) (reset_password_key : String)
  | saveSend (uuid : String)
  | saveCipher (uuid : String)
  | saveUser (u : User)
deriving DecidableEq, Repr

/-- The shape of the `ChangeKdfData` request body. -/
structure ChangeKdfData where
  kdf : Int
  kdf_iterations : Int
  kdf_memory : Option Int
  kdf_parallelism : Option Int
  master_password_hash : String
  new_master_password_hash : String
  key : String
deriving DecidableEq, Repr

instance {ε α : Type} [DecidableEq ε] [DecidableEq α] : DecidableEq (Except ε α) := fun a b =>
  match a, b with
  | .ok x, .ok y => if h : x = y then .isTrue (by rw [h]) else .isFalse (by simp [h])
  | .error x, .error y => if h : x = y then .isTrue (by rw [h]) else .isFalse (by simp [h])
  | .ok _, .error _ => .isFalse (by simp)
  | .error _, .ok _ => .isFalse (by simp)

/-- Result of a handler that only reports success/failure, together with the
write trace it committed and the logout broadcast it issued
(`some excluded` = `send_logout` called with that excluded device). -/
structure KdfResult where
  result : Except String Unit
  writes : List DbWrite
  logout : Option (Option String)
deriving DecidableEq, Repr

/-- The KDF-parameter validation/assignment block of `post_kdf`
(`accounts.rs:495-518`).  The source assigns `client_kdf_memory` in memory
before validating parallelism; since every failure path returns before
`user.save`, collapsing the in-memory assignments onto the success path is
observationally identical. -/
def applyKdfParams (data : ChangeKdfData) (user : User) : Except String User :=
  if data.kdf = argon2idKdf then
    if data.kdf_iterations < 1 then
      .error "Argon2 KDF iterations must be at least 1."
    else
      match data.kdf_memory with
      | none => .error "Argon2 memory parameter is required."
      | some m =>
        if m < 15 ∨ 1024 < m then
          .error "Argon2 memory must be between 15 MB and 1024 MB."
        else
          match data.kdf_parallelism with
          | none => .error "Argon2 parallelism parameter is required."
          | some p =>
            if p < 1 ∨ 16 < p then
              .error "Argon2 parallelism must be between 1 and 16."
            else
              .ok { user with
                      client_kdf_memory := data.kdf_memory
                      client_kdf_parallelism := data.kdf_parallelism }
  else
    .ok { user with client_kdf_memory := none, client_kdf_parallelism := none }

/-- The `post_kdf` handler (`accounts.rs:482-527`): verify the current
password, enforce the KDF floors, then write the new KDF parameters and the
new password via `set_password` and save the user, excluding the initiating
device from the logout broadcast. -/
def post_kdf (data : ChangeKdfData) (user : User) (deviceUuid : String)
    (freshStamp : String) : KdfResult :=
  if ¬ user.check_valid_password data.master_password_hash then
    ⟨.error "Invalid password", [], none⟩
  else if data.kdf = pbkdf2Kdf ∧ data.kdf_iterations < 100000 then
    ⟨.error "PBKDF2 KDF iterations must be at least 100000.", [], none⟩
  else
    match applyKdfParams data user with
    | .error e => ⟨.error e, [], none⟩
    | .ok u1 =>
      let u2 : User := { u1 with client_kdf_iter := data.kdf_iterations, client_kdf_type := data.kdf }
      let u3 := u2.set_password data.new_master_password_hash (some data.key) true none freshStamp
      ⟨.ok (), [.saveUser u3], some (some deviceUuid)⟩

/-- `true` iff an `Except` result is a success. -/
def exceptOk {α : Type} : Except String α → Bool
  | .ok _ => true
  | .error _ => false

lemma applyKdfParams_ok_iff (data : ChangeKdfData) (user : User) :
    exceptOk (applyKdfParams data user) = true ↔
      (data.kdf = argon2idKdf →
        (1 ≤ data.kdf_iterations ∧
          (∃ m, data.kdf_memory = some m ∧ 15 ≤ m ∧ m ≤ 1024) ∧
          (∃ p, data.kdf_parallelism = some p ∧ 1 ≤ p ∧ p ≤ 16))) := by
  by_cases hk : data.kdf = argon2idKdf
  · rcases hm : data.kdf_memory with _ | m <;> rcases hp : data.kdf_parallelism with _ | p <;>
      simp [applyKdfParams, hk, hm, hp, exceptOk] <;> split_ifs <;>
      simp_all [exceptOk] <;> omega
  · simp [applyKdfParams, hk, exceptOk]

/-- C5: for a `ChangeKdfData` input with a correct current password, a PBKDF2
change is rejected exactly when `iterations < 100000`, and an Argon2id change
is rejected exactly when `iterations < 1`, or `memory` is absent or outside
`[15, 1024]`, or `parallelism` is absent or outside `[1, 16]`; in particular
the boundary values 100000, 1, 15, 1024, 1 and 16 are accepted. -/
theorem post_kdf_kdf_floors (data : ChangeKdfData) (user : User) (dev fresh : String)
    (hpw : user.check_valid_password data.master_password_hash = true) :
    (data.kdf = pbkdf2Kdf →
      (exceptOk (post_kdf data user dev fresh).result = true ↔ 100000 ≤ data.kdf_iterations)) ∧
    (data.kdf = argon2idKdf →
      (exceptOk (post_kdf data user dev fresh).result = true ↔
        (1 ≤ data.kdf_iterations ∧
          (∃ m, data.kdf_memory = some m ∧ 15 ≤ m ∧ m ≤ 1024) ∧
          (∃ p, data.kdf_parallelism = some p ∧ 1 ≤ p ∧ p ≤ 16)))) := by
  constructor
  · intro hk
    have hne : data.kdf ≠ argon2idKdf := by rw [hk]; decide
    simp only [post_kdf, hpw]
    norm_num
    split_ifs with h1
    · simp only [exceptOk]
      constructor
      · intro h; exact absurd h (by decide)
      · intro h; exact absurd h1 (by omega)
    · have : ¬ data.kdf_iterations < 100000 := fun hlt => h1 ⟨hk, hlt⟩
      rcases hap : applyKdfParams data user with e | u1
      · have := (applyKdfParams_ok_iff data user).mpr (fun h => absurd h hne)
        rw [hap] at this; simp [exceptOk] at this
      · simp [exceptOk]; omega
  · intro hk
    have hne : data.kdf ≠ pbkdf2Kdf := by rw [hk]; decide
    simp only [post_kdf, hpw]
    norm_num
    have h1 : ¬ (data.kdf = pbkdf2Kdf ∧ data.kdf_iterations < 100000) := fun h => hne h.1
    rw [if_neg h1]
    have hiff := applyKdfParams_ok_iff data user
    rcases hap : applyKdfParams data user with e | u1 <;> rw [hap] at hiff <;>
      simpa [exceptOk, hk] using hiff

/-- C5 witness: Argon2id at the boundary values (iterations 1, memory 15,
parallelism 16) is accepted. -/
theorem post_kdf_kdf_floors_witness :
    exceptOk (post_kdf ⟨1, 1, some 15, some 16, "pw", "npw", "k"⟩
      ⟨"u1", "a@b", "pw", "ak", none, none, 1, 1, some 64, some 4, "st", none, none⟩
      "dev" "fresh").result = true :=
  ((post_kdf_kdf_floors ⟨1, 1, some 15, some 16, "pw", "npw", "k"⟩
      ⟨"u1", "a@b", "pw", "ak", none, none, 1, 1, some 64, some 4, "st", none, none⟩
      "dev" "fresh" (by decide)).2 rfl).mpr
    ⟨by decide, ⟨15, rfl, by decide, by decide⟩, ⟨16, rfl, by decide, by decide⟩⟩

/-- C9: every KDF-rule violation in `post_kdf` fails with its specific reason,
commits no write to the store, and sends no logout broadcast. -/
theorem post_kdf_invalid_no_mutation (data : ChangeKdfData) (user : User) (dev fresh : String)
    (hpw : user.check_valid_password data.master_password_hash = true) :
    (data.kdf = pbkdf2Kdf ∧ data.kdf_iterations < 100000 →
      post_kdf data user dev fresh =
        ⟨.error "PBKDF2 KDF iterations must be at least 100000.", [], none⟩) ∧
    (data.kdf = argon2idKdf ∧ data.kdf_iterations < 1 →
      post_kdf data user dev fresh =
        ⟨.error "Argon2 KDF iterations must be at least 1.", [], none⟩) ∧
    (data.kdf = argon2idKdf ∧ 1 ≤ data.kdf_iterations ∧ data.kdf_memory = none →
      post_kdf data user dev fresh =
        ⟨.error "Argon2 memory parameter is required.", [], none⟩) ∧
    (∀ m, data.kdf = argon2idKdf ∧ 1 ≤ data.kdf_iterations ∧ data.kdf_memory = some m ∧
        (m < 15 ∨ 1024 < m) →
      post_kdf data user dev fresh =
        ⟨.error "Argon2 memory must be between 15 MB and 1024 MB.", [], none⟩) ∧
    (∀ m, data.kdf = argon2idKdf ∧ 1 ≤ data.kdf_iterations ∧ data.kdf_memory = some m ∧
        15 ≤ m ∧ m ≤ 1024 ∧ data.kdf_parallelism = none →
      post_kdf data user dev fresh =
        ⟨.error "Argon2 parallelism parameter is required.", [], none⟩) ∧
    (∀ m p, data.kdf = argon2idKdf ∧ 1 ≤ data.kdf_iterations ∧ data.kdf_memory = some m ∧
        15 ≤ m ∧ m ≤ 1024 ∧ data.kdf_parallelism = some p ∧ (p < 1 ∨ 16 < p) →
      post_kdf data user dev fresh =
        ⟨.error "Argon2 parallelism must be between 1 and 16.", [], none⟩) := by
  have hno : ∀ (hk : data.kdf = argon2idKdf),
      ¬ (data.kdf = pbkdf2Kdf ∧ data.kdf_iterations < 100000) := by
    intro hk h; rw [hk] at h; exact absurd h.1 (by decide)
  refine ⟨?_, ?_, ?_, ?_, ?_, ?_⟩
  · rintro ⟨hk, hi⟩
    simp [post_kdf, hpw, hk, hi, pbkdf2Kdf, argon2idKdf]
  · rintro ⟨hk, hi⟩
    simp [post_kdf, hpw, hno hk, applyKdfParams, hk, hi, pbkdf2Kdf, argon2idKdf]
  · rintro ⟨hk, hi, hm⟩
    have hi1 : ¬ data.kdf_iterations < 1 := by omega
    simp [post_kdf, hpw, hno hk, applyKdfParams, hk, hm, hi1, pbkdf2Kdf, argon2idKdf]
  · rintro m ⟨hk, hi, hm, hrange⟩
    have hi1 : ¬ data.kdf_iterations < 1 := by omega
    simp [post_kdf, hpw, hno hk, applyKdfParams, hk, hm, hrange, hi1, pbkdf2Kdf, argon2idKdf]
  · rintro m ⟨hk, hi, hm, hm1, hm2, hp⟩
    have hi1 : ¬ data.kdf_iterations < 1 := by omega
    have hmr : ¬ (m < 15 ∨ 1024 < m) := by omega
    simp [post_kdf, hpw, hno hk, applyKdfParams, hk, hm, hp, hi1, hmr, pbkdf2Kdf, argon2idKdf]
  · rintro m p ⟨hk, hi, hm, hm1, hm2, hp, hprange⟩
    have hi1 : ¬ data.kdf_iterations < 1 := by omega
    have hmr : ¬ (m < 15 ∨ 1024 < m) := by omega
    simp [post_kdf, hpw, hno hk, applyKdfParams, hk, hm, hp, hprange, hi1, hmr, pbkdf2Kdf,
      argon2idKdf]

/-- C9 witness: Argon2id with parallelism 17 fails with the parallelism reason
and commits nothing. -/
theorem post_kdf_invalid_no_mutation_witness :
    post_kdf ⟨1, 3, some 64, some 17, "pw", "npw", "k"⟩
      ⟨"u1", "a@b", "pw", "ak", none, none, 1, 1, some 64, some 4, "st", none, none⟩
      "dev" "fresh" =
      ⟨.error "Argon2 parallelism must be between 1 and 16.", [], none⟩ :=
  (post_kdf_invalid_no_mutation ⟨1, 3, some 64, some 17, "pw", "npw", "k"⟩
      ⟨"u1", "a@b", "pw", "ak", none, none, 1, 1, some 64, some 4, "st", none, none⟩
      "dev" "fresh" (by decide)).2.2.2.2.2 64 17
    ⟨rfl, by decide, rfl, by decide, by decide, rfl, Or.inr (by decide)⟩

/-- A personally owned `Cipher` record (only its identifier is read here). -/
structure Cipher where
  uuid : String
deriving DecidableEq, Repr

/-- A `Folder` record. -/
structure Folder where
  uuid : String
  name : String
deriving DecidableEq, Repr

/-- An `EmergencyAccess` grant (by grantor). -/
structure EmergencyAccess where
  uuid : String
  key_encrypted : Option String
deriving DecidableEq, Repr

/-- An organization `Membership`, possibly carrying a reset-password key. -/
structure Membership where
  org_uuid : String
  reset_password_key : Option String
deriving DecidableEq, Repr

/-- A `Send` record (only its identifier is read here). -/
structure Send where
  uuid : String
deriving DecidableEq, Repr

/-- `UpdateFolderData`: the id is optional to tolerate `null` entries from
buggy clients (bitwarden/clients#8453). -/
structure UpdateFolderData where
  id : Option String
  name : String
deriving DecidableEq, Repr

/-- `UpdateEmergencyAccessData` payload entry. -/
structure UpdateEmergencyAccessData where
  id : String
  key_encrypted : String
deriving DecidableEq, Repr

/-- `UpdateResetPasswordData` payload entry. -/
structure UpdateResetPasswordData where
  organization_id : String
  reset_password_key : String
deriving DecidableEq, Repr

/-- `SendData` (from `super::sends`), restricted to the fields `post_rotatekey`
reads: the optional id and an opaque rest. -/
structure SendData where
  id : Option String
deriving DecidableEq, Repr

/-- `CipherData` (from `super::ciphers`), restricted to the fields
`post_rotatekey` reads: the optional id, the organization id, and an opaque
rest. -/
structure CipherData where
  id : Option String
  organization_id : Option String
deriving DecidableEq, Repr

/-- `MasterPasswordUnlockData` of the rotation payload. -/
structure MasterPasswordUnlockData where
  kdf_type : Int
  kdf_iterations : Int
  kdf_parallelism : Option Int
  kdf_memory : Option Int
  email : String
  master_key_authentication_hash : String
  master_key_encrypted_user_key : String
deriving DecidableEq, Repr

/-- `RotateAccountUnlockData` of the rotation payload. -/
structure RotateAccountUnlockData where
  emergency_access_unlock_data : List UpdateEmergencyAccessData
  master_password_unlock_data : MasterPasswordUnlockData
  organization_account_recovery_unlock_data : List UpdateResetPasswordData
deriving DecidableEq, Repr

/-- `RotateAccountKeys` of the rotation payload. -/
structure RotateAccountKeys where
  user_key_encrypted_account_private_key : String
  account_public_key : String
deriving DecidableEq, Repr

/-- `RotateAccountData` of the rotation payload. -/
structure RotateAccountData where
  ciphers : List CipherData
  folders : List UpdateFolderData
  sends : List SendData
deriving DecidableEq, Repr

/-- The full `KeyData` rotation payload. -/
structure KeyData where
  account_unlock_data : RotateAccountUnlockData
  account_keys : RotateAccountKeys
  account_data : RotateAccountData
  old_master_key_authentication_hash : String
deriving DecidableEq, Repr

/-- `provided ⊇ existing` on identifier sets, as `HashSet::is_superset`:
every existing identifier occurs among the provided ones. -/
def supersetOf (provided existing : List String) : Bool :=
  existing.all (fun e => provided.contains e)

/-- The provided cipher identifiers: organization-owned entries are filtered
out, then entries without an id are skipped (`filter` + `filter_map`). -/
def providedCipherIds (data : KeyData) : List String :=
  (data.account_data.ciphers.filter (fun c => c.organization_id.isNone)).filterMap (fun c => c.id)

/-- The provided folder identifiers (`filter_map` skips id-less entries). -/
def providedFolderIds (data : KeyData) : List String :=
  data.account_data.folders.filterMap (fun f => f.id)

/-- The provided emergency-access identifiers. -/
def providedEmergencyAccessIds (data : KeyData) : List String :=
  data.account_unlock_data.emergency_access_unlock_data.map (fun ea => ea.id)

/-- The provided reset-password organization identifiers. -/
def providedResetPasswordIds (data : KeyData) : List String :=
  data.account_unlock_data.organization_account_recovery_unlock_data.map
    (fun rp => rp.organization_id)

/-- The provided send identifiers (`filter_map` skips id-less entries). -/
def providedSendIds (data : KeyData) : List String :=
  data.account_data.sends.filterMap (fun s => s.id)

/-- `validate_keydata` (`accounts.rs:600-676`): the declared KDF/email and
public key must equal the stored ones, and for each of the five entity
families the provided identifier set must be a superset of the existing
one. -/
def validate_keydata (data : KeyData) (existing_ciphers : List Cipher)
    (existing_folders : List Folder) (existing_emergency_access : List EmergencyAccess)
    (existing_memberships : List Membership) (existing_sends : List Send)
    (user : User) : Except String Unit :=
  let mpu := data.account_unlock_data.master_password_unlock_data
  if user.client_kdf_type ≠ mpu.kdf_type
      ∨ user.client_kdf_iter ≠ mpu.kdf_iterations
      ∨ user.client_kdf_memory ≠ mpu.kdf_memory
      ∨ user.client_kdf_parallelism ≠ mpu.kdf_parallelism
      ∨ user.email ≠ mpu.email then
    .error "Changing the kdf variant or email is not supported during key rotation"
  else if user.public_key ≠ some data.account_keys.account_public_key then
    .error "Changing the asymmetric keypair is not possible during key rotation"
  else if ¬ supersetOf (providedCipherIds data) (existing_ciphers.map (fun c => c.uuid)) then
    .error "All existing ciphers must be included in the rotation"
  else if ¬ supersetOf (providedFolderIds data) (existing_folders.map (fun f => f.uuid)) then
    .error "All existing folders must be included in the rotation"
  else if ¬ supersetOf (providedEmergencyAccessIds data)
      (existing_emergency_access.map (fun ea => ea.uuid)) then
    .error "All existing emergency access keys must be included in the rotation"
  else if ¬ supersetOf (providedResetPasswordIds data)
      (existing_memberships.map (fun m => m.org_uuid)) then
    .error "All existing reset password keys must be included in the rotation"
  else if ¬ supersetOf (providedSendIds data) (existing_sends.map (fun s => s.uuid)) then
    .error "All existing sends must be included in the rotation"
  else
    .ok ()

/-- Result of one apply-phase loop: success, a request-failing error, or a
process panic, each together with the writes committed before it. -/
inductive LoopRes where
  | ok (ws : List DbWrite)
  | failed (msg : String) (ws : List DbWrite)
  | panicked (msg : String) (ws : List DbWrite)
deriving DecidableEq, Repr

/-- Record a committed write in front of a loop result. -/
def LoopRes.prepend (w : DbWrite) : LoopRes → LoopRes
  | .ok ws => .ok (w :: ws)
  | .failed m ws => .failed m (w :: ws)
  | .panicked m ws => .panicked m (w :: ws)

/-- Record a list of committed writes in front of a loop result. -/
def LoopRes.prependAll (ws : List DbWrite) : LoopRes → LoopRes
  | .ok ws2 => .ok (ws ++ ws2)
  | .failed m ws2 => .failed m (ws ++ ws2)
  | .panicked m ws2 => .panicked m (ws ++ ws2)

/-- Sequence two apply phases: a failure or panic stops the pipeline, keeping
the writes already committed. -/
def LoopRes.andThen (r : LoopRes) (k : Unit → LoopRes) : LoopRes :=
  match r with
  | .ok ws => (k ()).prependAll ws
  | .failed m ws => .failed m ws
  | .panicked m ws => .panicked m ws

/-- The folder loop of `post_rotatekey` (`accounts.rs:716-727`): `null` ids
are skipped, an unknown id fails, a known id is saved with the new name. -/
def applyFolders (payload : List UpdateFolderData) (existing : List Folder) : LoopRes :=
  match payload with
  | [] => .ok []
  | fd :: rest =>
    match fd.id with
    | none => applyFolders rest existing
    | some fid =>
      if existing.any (fun f => f.uuid == fid) then
        (applyFolders rest existing).prepend (.saveFolder fid fd.name)
      else .failed "Folder doesn\x27t exist" []

/-- The emergency-access loop of `post_rotatekey` (`accounts.rs:730-739`). -/
def applyEmergencyAccess (payload : List UpdateEmergencyAccessData)
    (existing : List EmergencyAccess) : LoopRes :=
  match payload with
  | [] => .ok []
  | ea :: rest =>
    if existing.any (fun e => e.uuid == ea.id) then
      (applyEmergencyAccess rest existing).prepend (.saveEmergencyAccess ea.id ea.key_encrypted)
    else .failed "Emergency access doesn\x27t exist or is not owned by the user" []

/-- The reset-password loop of `post_rotatekey` (`accounts.rs:742-751`). -/
def applyResetPassword (payload : List UpdateResetPasswordData)
    (existing : List Membership) : LoopRes :=
  match payload with
  | [] => .ok []
  | rp :: rest =>
    if existing.any (fun m => m.org_uuid == rp.organization_id) then
      (applyResetPassword rest existing).prepend
        (.saveMembership rp.organization_id rp.reset_password_key)
    else .failed "Reset password doesn\x27t exist" []

/-- Rust panic message of `Option::unwrap` on `None`. -/
def unwrapNoneMsg : String := "called `Option::unwrap()` on a `None` value"

/-- The send loop of `post_rotatekey` (`accounts.rs:754-760`).  The
`send_data.id.as_ref().unwrap()` sits inside the `find` closure, so it is
evaluated once per existing send: with no existing sends the loop fails with
the not-found error, with at least one it panics on an id-less entry.
`update_send_from_data` (in `super::sends`, outside the provided sources) is
abstracted as an unconditional save of the matched send. -/
def applySends (payload : List SendData) (existing : List Send) : LoopRes :=
  match payload with
  | [] => .ok []
  | sd :: rest =>
    match existing with
    | [] => .failed "Send doesn\x27t exist" []
    | _ :: _ =>
      match sd.id with
      | none => .panicked unwrapNoneMsg []
      | some sid =>
        if existing.any (fun s => s.uuid == sid) then
          (applySends rest existing).prepend (.saveSend sid)
        else .failed "Send doesn\x27t exist" []

/-- The cipher loop of `post_rotatekey` (`accounts.rs:765-777`): entries for
organization-owned ciphers are skipped; for personal entries the
`cipher_data.id.as_ref().unwrap()` sits inside the `find` closure, exactly as
in `applySends`.  `update_cipher_from_data` (in `super::ciphers`, outside the
provided sources) is abstracted as an unconditional save of the matched
cipher, with `UpdateType::None` suppressing change notifications. -/
def applyCiphers (payload : List CipherData) (existing : List Cipher) : LoopRes :=
  match payload with
  | [] => .ok []
  | cd :: rest =>
    if cd.organization_id.isNone then
      match existing with
      | [] => .failed "Cipher doesn\x27t exist" []
      | _ :: _ =>
        match cd.id with
        | none => .panicked unwrapNoneMsg []
        | some cid =>
          if existing.any (fun c => c.uuid == cid) then
            (applyCiphers rest existing).prepend (.saveCipher cid)
          else .failed "Cipher doesn\x27t exist" []
    else applyCiphers rest existing

/-- Outcome of the whole `post_rotatekey` handler. -/
inductive Outcome where
  | ok
  | err (msg : String)
  | panicked (msg : String)
deriving DecidableEq, Repr

/-- Observable behaviour of `post_rotatekey`: outcome, committed store writes
in order, and the logout broadcast (`some excluded` = `send_logout` called
with that excluded device). -/
structure RotResult where
  outcome : Outcome
  writes : List DbWrite
  logout : Option (Option String)
deriving DecidableEq, Repr

/-- The current owned entities of the user, as returned by the store lookups at
`accounts.rs:697-703` (memberships before the `reset_password_key` retain). -/
structure RotateEnv where
  existing_ciphers : List Cipher
  existing_folders : List Folder
  existing_emergency_access : List EmergencyAccess
  existing_memberships : List Membership
  existing_sends : List Send
deriving DecidableEq, Repr

/-- The `retain` on memberships (`accounts.rs:702`): only memberships with a
reset-password key set take part in rotation. -/
def retainResetPassword (ms : List Membership) : List Membership :=
  ms.filter (fun m => m.reset_password_key.isSome)

/-- The `post_rotatekey` handler (`accounts.rs:678-798`).
`cipherContentCheck` abstracts `Cipher::validate_cipher_data` (in
`src/db/models/cipher.rs`, outside the provided sources), which pre-validates
cipher payload contents before anything else. -/
def post_rotatekey (data : KeyData) (user : User) (deviceUuid : String)
    (cipherContentCheck : List CipherData → Except String Unit)
    (env : RotateEnv) (freshStamp : String) : RotResult :=
  if ¬ user.check_valid_password data.old_master_key_authentication_hash then
    ⟨.err "Invalid password", [], none⟩
  else
    match cipherContentCheck data.account_data.ciphers with
    | .error e => ⟨.err e, [], none⟩
    | .ok _ =>
      let memberships := retainResetPassword env.existing_memberships
      match validate_keydata data env.existing_ciphers env.existing_folders
          env.existing_emergency_access memberships env.existing_sends user with
      | .error e => ⟨.err e, [], none⟩
      | .ok _ =>
        let r := (applyFolders data.account_data.folders env.existing_folders).andThen fun _ =>
          (applyEmergencyAccess data.account_unlock_data.emergency_access_unlock_data
              env.existing_emergency_access).andThen fun _ =>
            (applyResetPassword data.account_unlock_data.organization_account_recovery_unlock_data
                memberships).andThen fun _ =>
              (applySends data.account_data.sends env.existing_sends).andThen fun _ =>
                applyCiphers data.account_data.ciphers env.existing_ciphers
        match r with
        | .ok ws =>
          let mpu := data.account_unlock_data.master_password_unlock_data
          let user1 : User :=
            { user with private_key := some data.account_keys.user_key_encrypted_account_private_key }
          let user2 := user1.set_password mpu.master_key_authentication_hash
            (some mpu.master_key_encrypted_user_key) true none freshStamp
          ⟨.ok, ws ++ [.saveUser user2], some (some deviceUuid)⟩
        | .failed m ws => ⟨.err m, ws, none⟩
        | .panicked m ws => ⟨.panicked m, ws, none⟩

lemma post_rotatekey_validation_error (data : KeyData) (user : User) (dev : String)
    (cc : List CipherData → Except String Unit) (env : RotateEnv) (fresh : String) (e : String)
    (hpw : user.check_valid_password data.old_master_key_authentication_hash = true)
    (hcc : cc data.account_data.ciphers = .ok ())
    (hv : validate_keydata data env.existing_ciphers env.existing_folders
      env.existing_emergency_access (retainResetPassword env.existing_memberships)
      env.existing_sends user = .error e) :
    post_rotatekey data user dev cc env fresh = ⟨.err e, [], none⟩ := by
  simp [post_rotatekey, hpw, hcc, hv]

/-- C2: a rotation payload whose declared KDF type, iterations, memory,
parallelism or email differs from the stored values fails with the
kdf-change error, and one whose public key differs from the stored public key
fails with the keypair-change error, in both cases before any entity is
written (empty write trace, no logout). -/
theorem rotate_rejects_kdf_email_pubkey_change (data : KeyData) (user : User) (dev : String)
    (cc : List CipherData → Except String Unit) (env : RotateEnv) (fresh : String)
    (hpw : user.check_valid_password data.old_master_key_authentication_hash = true)
    (hcc : cc data.account_data.ciphers = .ok ()) :
    (user.client_kdf_type ≠ data.account_unlock_data.master_password_unlock_data.kdf_type
        ∨ user.client_kdf_iter ≠ data.account_unlock_data.master_password_unlock_data.kdf_iterations
        ∨ user.client_kdf_memory ≠ data.account_unlock_data.master_password_unlock_data.kdf_memory
        ∨ user.client_kdf_parallelism
            ≠ data.account_unlock_data.master_password_unlock_data.kdf_parallelism
        ∨ user.email ≠ data.account_unlock_data.master_password_unlock_data.email →
      post_rotatekey data user dev cc env fresh =
        ⟨.err "Changing the kdf variant or email is not supported during key rotation",
          [], none⟩) ∧
    (user.client_kdf_type = data.account_unlock_data.master_password_unlock_data.kdf_type →
      user.client_kdf_iter = data.account_unlock_data.master_password_unlock_data.kdf_iterations →
      user.client_kdf_memory = data.account_unlock_data.master_password_unlock_data.kdf_memory →
      user.client_kdf_parallelism
          = data.account_unlock_data.master_password_unlock_data.kdf_parallelism →
      user.email = data.account_unlock_data.master_password_unlock_data.email →
      user.public_key ≠ some data.account_keys.account_public_key →
      post_rotatekey data user dev cc env fresh =
        ⟨.err "Changing the asymmetric keypair is not possible during key rotation",
          [], none⟩) := by
  constructor
  · intro hmis
    refine post_rotatekey_validation_error data user dev cc env fresh _ hpw hcc ?_
    simp only [validate_keydata]
    rw [if_pos hmis]
  · intro h1 h2 h3 h4 h5 hpub
    refine post_rotatekey_validation_error data user dev cc env fresh _ hpw hcc ?_
    simp [validate_keydata, h1, h2, h3, h4, h5, hpub]

/-- C2 witness: a payload declaring one extra KDF iteration is rejected with
the kdf-change error and nothing written. -/
theorem rotate_rejects_kdf_email_pubkey_change_witness :
    post_rotatekey
      ⟨⟨[], ⟨0, 100001, none, none, "a@b", "nh", "nk"⟩, []⟩, ⟨"npriv", "pub"⟩, ⟨[], [], []⟩, "pw"⟩
      ⟨"u1", "a@b", "pw", "ak", some "priv", some "pub", 0, 100000, none, none, "st", none, none⟩
      "dev" (fun _ => Except.ok ()) ⟨[], [], [], [], []⟩ "fresh" =
      ⟨.err "Changing the kdf variant or email is not supported during key rotation",
        [], none⟩ :=
  (rotate_rejects_kdf_email_pubkey_change
      ⟨⟨[], ⟨0, 100001, none, none, "a@b", "nh", "nk"⟩, []⟩, ⟨"npriv", "pub"⟩, ⟨[], [], []⟩, "pw"⟩
      ⟨"u1", "a@b", "pw", "ak", some "priv", some "pub", 0, 100000, none, none, "st", none, none⟩
      "dev" (fun _ => Except.ok ()) ⟨[], [], [], [], []⟩ "fresh" (by decide) rfl).1
    (Or.inr (Or.inl (by decide)))

/-- C1: with matching stored KDF/email/public key, every entity family whose
provided identifier set (organization-owned cipher entries filtered out
before the cipher comparison) is not a superset of the current owned set of
the user makes `post_rotatekey` fail with the named error of that family, writing
nothing and sending no logout; in particular any strict-subset payload is
rejected. -/
theorem rotate_incomplete_family_rejected (data : KeyData) (user : User) (dev : String)
    (cc : List CipherData → Except String Unit) (env : RotateEnv) (fresh : String)
    (hpw : user.check_valid_password data.old_master_key_authentication_hash = true)
    (hcc : cc data.account_data.ciphers = .ok ())
    (h1 : user.client_kdf_type = data.account_unlock_data.master_password_unlock_data.kdf_type)
    (h2 : user.client_kdf_iter = data.account_unlock_data.master_password_unlock_data.kdf_iterations)
    (h3 : user.client_kdf_memory = data.account_unlock_data.master_password_unlock_data.kdf_memory)
    (h4 : user.client_kdf_parallelism
      = data.account_unlock_data.master_password_unlock_data.kdf_parallelism)
    (h5 : user.email = data.account_unlock_data.master_password_unlock_data.email)
    (hpub : user.public_key = some data.account_keys.account_public_key) :
    (supersetOf (providedCipherIds data) (env.existing_ciphers.map (fun c => c.uuid)) = false →
      post_rotatekey data user dev cc env fresh =
        ⟨.err "All existing ciphers must be included in the rotation", [], none⟩) ∧
    (supersetOf (providedCipherIds data) (env.existing_ciphers.map (fun c => c.uuid)) = true →
      supersetOf (providedFolderIds data) (env.existing_folders.map (fun f => f.uuid)) = false →
      post_rotatekey data user dev cc env fresh =
        ⟨.err "All existing folders must be included in the rotation", [], none⟩) ∧
    (supersetOf (providedCipherIds data) (env.existing_ciphers.map (fun c => c.uuid)) = true →
      supersetOf (providedFolderIds data) (env.existing_folders.map (fun f => f.uuid)) = true →
      supersetOf (providedEmergencyAccessIds data)
        (env.existing_emergency_access.map (fun ea => ea.uuid)) = false →
      post_rotatekey data user dev cc env fresh =
        ⟨.err "All existing emergency access keys must be included in the rotation", [], none⟩) ∧
    (supersetOf (providedCipherIds data) (env.existing_ciphers.map (fun c => c.uuid)) = true →
      supersetOf (providedFolderIds data) (env.existing_folders.map (fun f => f.uuid)) = true →
      supersetOf (providedEmergencyAccessIds data)
        (env.existing_emergency_access.map (fun ea => ea.uuid)) = true →
      supersetOf (providedResetPasswordIds data)
        ((retainResetPassword env.existing_memberships).map (fun m => m.org_uuid)) = false →
      post_rotatekey data user dev cc env fresh =
        ⟨.err "All existing reset password keys must be included in the rotation", [], none⟩) ∧
    (supersetOf (providedCipherIds data) (env.existing_ciphers.map (fun c => c.uuid)) = true →
      supersetOf (providedFolderIds data) (env.existing_folders.map (fun f => f.uuid)) = true →
      supersetOf (providedEmergencyAccessIds data)
        (env.existing_emergency_access.map (fun ea => ea.uuid)) = true →
      supersetOf (providedResetPasswordIds data)
        ((retainResetPassword env.existing_memberships).map (fun m => m.org_uuid)) = true →
      supersetOf (providedSendIds data) (env.existing_sends.map (fun s => s.uuid)) = false →
      post_rotatekey data user dev cc env fresh =
        ⟨.err "All existing sends must be included in the rotation", [], none⟩) ∧
    (supersetOf (providedCipherIds data) (env.existing_ciphers.map (fun c => c.uuid)) = false
        ∨ supersetOf (providedFolderIds data) (env.existing_folders.map (fun f => f.uuid)) = false
        ∨ supersetOf (providedEmergencyAccessIds data)
            (env.existing_emergency_access.map (fun ea => ea.uuid)) = false
        ∨ supersetOf (providedResetPasswordIds data)
            ((retainResetPassword env.existing_memberships).map (fun m => m.org_uuid)) = false
        ∨ supersetOf (providedSendIds data) (env.existing_sends.map (fun s => s.uuid)) = false →
      ∃ m, post_rotatekey data user dev cc env fresh = ⟨.err m, [], none⟩) := by
  have base : ∀ e : String,
      validate_keydata data env.existing_ciphers env.existing_folders
        env.existing_emergency_access (retainResetPassword env.existing_memberships)
        env.existing_sends user = .error e →
      post_rotatekey data user dev cc env fresh = ⟨.err e, [], none⟩ :=
    fun e hv => post_rotatekey_validation_error data user dev cc env fresh e hpw hcc hv
  have kC : ∀ hc : supersetOf (providedCipherIds data)
      (env.existing_ciphers.map (fun c => c.uuid)) = false,
      post_rotatekey data user dev cc env fresh =
        ⟨.err "All existing ciphers must be included in the rotation", [], none⟩ := by
    intro hc
    exact base _ (by simp [validate_keydata, h1, h2, h3, h4, h5, hpub, hc])
  have kF : supersetOf (providedCipherIds data) (env.existing_ciphers.map (fun c => c.uuid)) = true →
      supersetOf (providedFolderIds data) (env.existing_folders.map (fun f => f.uuid)) = false →
      post_rotatekey data user dev cc env fresh =
        ⟨.err "All existing folders must be included in the rotation", [], none⟩ := by
    intro hc hf
    exact base _ (by simp [validate_keydata, h1, h2, h3, h4, h5, hpub, hc, hf])
  have kE : supersetOf (providedCipherIds data) (env.existing_ciphers.map (fun c => c.uuid)) = true →
      supersetOf (providedFolderIds data) (env.existing_folders.map (fun f => f.uuid)) = true →
      supersetOf (providedEmergencyAccessIds data)
        (env.existing_emergency_access.map (fun ea => ea.uuid)) = false →
      post_rotatekey data user dev cc env fresh =
        ⟨.err "All existing emergency access keys must be included in the rotation", [], none⟩ := by
    intro hc hf he
    exact base _ (by simp [validate_keydata, h1, h2, h3, h4, h5, hpub, hc, hf, he])
  have kR : supersetOf (providedCipherIds data) (env.existing_ciphers.map (fun c => c.uuid)) = true →
      supersetOf (providedFolderIds data) (env.existing_folders.map (fun f => f.uuid)) = true →
      supersetOf (providedEmergencyAccessIds data)
        (env.existing_emergency_access.map (fun ea => ea.uuid)) = true →
      supersetOf (providedResetPasswordIds data)
        ((retainResetPassword env.existing_memberships).map (fun m => m.org_uuid)) = false →
      post_rotatekey data user dev cc env fresh =
        ⟨.err "All existing reset password keys must be included in the rotation", [], none⟩ := by
    intro hc hf he hr
    exact base _ (by simp [validate_keydata, h1, h2, h3, h4, h5, hpub, hc, hf, he, hr])
  have kS : supersetOf (providedCipherIds data) (env.existing_ciphers.map (fun c => c.uuid)) = true →
      supersetOf (providedFolderIds data) (env.existing_folders.map (fun f => f.uuid)) = true →
      supersetOf (providedEmergencyAccessIds data)
        (env.existing_emergency_access.map (fun ea => ea.uuid)) = true →
      supersetOf (providedResetPasswordIds data)
        ((retainResetPassword env.existing_memberships).map (fun m => m.org_uuid)) = true →
      supersetOf (providedSendIds data) (env.existing_sends.map (fun s => s.uuid)) = false →
      post_rotatekey data user dev cc env fresh =
        ⟨.err "All existing sends must be included in the rotation", [], none⟩ := by
    intro hc hf he hr hs
    exact base _ (by simp [validate_keydata, h1, h2, h3, h4, h5, hpub, hc, hf, he, hr, hs])
  refine ⟨kC, kF, kE, kR, kS, ?_⟩
  intro hOr
  rcases hc : supersetOf (providedCipherIds data) (env.existing_ciphers.map (fun c => c.uuid)) with _ | _
  · exact ⟨_, kC hc⟩
  rcases hf : supersetOf (providedFolderIds data) (env.existing_folders.map (fun f => f.uuid)) with _ | _
  · exact ⟨_, kF hc hf⟩
  rcases he : supersetOf (providedEmergencyAccessIds data)
      (env.existing_emergency_access.map (fun ea => ea.uuid)) with _ | _
  · exact ⟨_, kE hc hf he⟩
  rcases hr : supersetOf (providedResetPasswordIds data)
      ((retainResetPassword env.existing_memberships).map (fun m => m.org_uuid)) with _ | _
  · exact ⟨_, kR hc hf he hr⟩
  rcases hs : supersetOf (providedSendIds data) (env.existing_sends.map (fun s => s.uuid)) with _ | _
  · exact ⟨_, kS hc hf he hr hs⟩
  · rcases hOr with h | h | h | h | h <;> simp_all

/-- C1 witness: a user owning one folder whose rotation payload omits it is
rejected with the folders error and nothing written. -/
theorem rotate_incomplete_family_rejected_witness :
    post_rotatekey
      ⟨⟨[], ⟨0, 100000, none, none, "a@b", "nh", "nk"⟩, []⟩, ⟨"npriv", "pub"⟩, ⟨[], [], []⟩, "pw"⟩
      ⟨"u1", "a@b", "pw", "ak", some "priv", some "pub", 0, 100000, none, none, "st", none, none⟩
      "dev" (fun _ => Except.ok ()) ⟨[], [⟨"f1", "n1"⟩], [], [], []⟩ "fresh" =
      ⟨.err "All existing folders must be included in the rotation", [], none⟩ :=
  (rotate_incomplete_family_rejected
      ⟨⟨[], ⟨0, 100000, none, none, "a@b", "nh", "nk"⟩, []⟩, ⟨"npriv", "pub"⟩, ⟨[], [], []⟩, "pw"⟩
      ⟨"u1", "a@b", "pw", "ak", some "priv", some "pub", 0, 100000, none, none, "st", none, none⟩
      "dev" (fun _ => Except.ok ()) ⟨[], [⟨"f1", "n1"⟩], [], [], []⟩ "fresh"
      (by decide) rfl rfl rfl rfl rfl rfl rfl).2.1 (by decide) (by decide)

lemma LoopRes.andThen_ok_decomp {r : LoopRes} {k : Unit → LoopRes} {ws : List DbWrite}
    (h : r.andThen k = .ok ws) :
    ∃ w1 w2, r = .ok w1 ∧ k () = .ok w2 ∧ ws = w1 ++ w2 := by
  cases r with
  | ok w1 =>
    cases hk : k () with
    | ok w2 =>
      simp only [LoopRes.andThen, hk, LoopRes.prependAll, LoopRes.ok.injEq] at h
      exact ⟨w1, w2, rfl, rfl, h.symm⟩
    | failed m w2 => simp [LoopRes.andThen, hk, LoopRes.prependAll] at h
    | panicked m w2 => simp [LoopRes.andThen, hk, LoopRes.prependAll] at h
  | failed m w => simp [LoopRes.andThen] at h
  | panicked m w => simp [LoopRes.andThen] at h

/-- C8: a rotation that applies successfully saves the user record last, after
the folder, emergency-access, reset-password, send and cipher writes in that
order; the new private-key ciphertext and master-key-authentication hash are
written through `set_password` with stamp regeneration on, so the stored
security stamp changes, and the logout broadcast excludes the initiating
device. -/
theorem rotate_success_updates_user_last (data : KeyData) (user : User) (dev : String)
    (cc : List CipherData → Except String Unit) (env : RotateEnv) (fresh : String)
    (hfresh : fresh ≠ user.security_stamp)
    (hok : (post_rotatekey data user dev cc env fresh).outcome = .ok) :
    ∃ wF wE wR wS wC u2,
      applyFolders data.account_data.folders env.existing_folders = .ok wF ∧
      applyEmergencyAccess data.account_unlock_data.emergency_access_unlock_data
        env.existing_emergency_access = .ok wE ∧
      applyResetPassword data.account_unlock_data.organization_account_recovery_unlock_data
        (retainResetPassword env.existing_memberships) = .ok wR ∧
      applySends data.account_data.sends env.existing_sends = .ok wS ∧
      applyCiphers data.account_data.ciphers env.existing_ciphers = .ok wC ∧
      post_rotatekey data user dev cc env fresh =
        ⟨.ok, wF ++ wE ++ wR ++ wS ++ wC ++ [.saveUser u2], some (some dev)⟩ ∧
      u2.private_key = some data.account_keys.user_key_encrypted_account_private_key ∧
      u2.password_hash
        = data.account_unlock_data.master_password_unlock_data.master_key_authentication_hash ∧
      u2.akey = data.account_unlock_data.master_password_unlock_data.master_key_encrypted_user_key ∧
      u2.security_stamp = fresh ∧
      u2.security_stamp ≠ user.security_stamp := by
  by_cases hpw : user.check_valid_password data.old_master_key_authentication_hash = true
  case neg =>
    exfalso
    simp [post_rotatekey, hpw] at hok
  rcases hcc : cc data.account_data.ciphers with e | uu
  · exfalso
    simp [post_rotatekey, hpw, hcc] at hok
  rcases hv : validate_keydata data env.existing_ciphers env.existing_folders
      env.existing_emergency_access (retainResetPassword env.existing_memberships)
      env.existing_sends user with e | uv
  · exfalso
    simp [post_rotatekey, hpw, hcc, hv] at hok
  rcases hr : (applyFolders data.account_data.folders env.existing_folders).andThen (fun _ =>
      (applyEmergencyAccess data.account_unlock_data.emergency_access_unlock_data
          env.existing_emergency_access).andThen fun _ =>
        (applyResetPassword data.account_unlock_data.organization_account_recovery_unlock_data
            (retainResetPassword env.existing_memberships)).andThen fun _ =>
          (applySends data.account_data.sends env.existing_sends).andThen fun _ =>
            applyCiphers data.account_data.ciphers env.existing_ciphers)
    with ws | ⟨m, ws⟩ | ⟨m, ws⟩
  rotate_left
  · exfalso
    simp [post_rotatekey, hpw, hcc, hv, hr] at hok
  · exfalso
    simp [post_rotatekey, hpw, hcc, hv, hr] at hok
  obtain ⟨wF, w1, hF, hr1, hws⟩ := LoopRes.andThen_ok_decomp hr
  obtain ⟨wE, w2, hE, hr2, hw1⟩ := LoopRes.andThen_ok_decomp hr1
  obtain ⟨wR, w3, hR, hr3, hw2⟩ := LoopRes.andThen_ok_decomp hr2
  obtain ⟨wS, wC, hS, hC, hw3⟩ := LoopRes.andThen_ok_decomp hr3
  refine ⟨wF, wE, wR, wS, wC,
    ({ user with
        private_key := some data.account_keys.user_key_encrypted_account_private_key
      }).set_password data.account_unlock_data.master_password_unlock_data.master_key_authentication_hash
      (some data.account_unlock_data.master_password_unlock_data.master_key_encrypted_user_key)
      true none fresh,
    hF, hE, hR, hS, hC, ?_, ?_, ?_, ?_, ?_, ?_⟩
  · have : ws = wF ++ (wE ++ (wR ++ (wS ++ wC))) := by rw [hws, hw1, hw2, hw3]
    simp only [post_rotatekey, hpw, hcc, hv, hr, this]
    simp
  · simp [User.set_password]
  · simp [User.set_password]
  · simp [User.set_password]
  · simp [User.set_password]
  · simpa [User.set_password] using hfresh

/-- C8 witness: the empty payload for a user owning nothing rotates
successfully, so the success-shape theorem applies. -/
theorem rotate_success_updates_user_last_witness :
    ∃ wF wE wR wS wC u2,
      applyFolders ([] : List UpdateFolderData) ([] : List Folder) = .ok wF ∧
      applyEmergencyAccess ([] : List UpdateEmergencyAccessData)
        ([] : List EmergencyAccess) = .ok wE ∧
      applyResetPassword ([] : List UpdateResetPasswordData)
        (retainResetPassword ([] : List Membership)) = .ok wR ∧
      applySends ([] : List SendData) ([] : List Send) = .ok wS ∧
      applyCiphers ([] : List CipherData) ([] : List Cipher) = .ok wC ∧
      post_rotatekey
        ⟨⟨[], ⟨0, 100000, none, none, "a@b", "nh", "nk"⟩, []⟩, ⟨"npriv", "pub"⟩, ⟨[], [], []⟩, "pw"⟩
        ⟨"u1", "a@b", "pw", "ak", some "priv", some "pub", 0, 100000, none, none, "st", none, none⟩
        "dev" (fun _ => Except.ok ()) ⟨[], [], [], [], []⟩ "fresh" =
        ⟨.ok, wF ++ wE ++ wR ++ wS ++ wC ++ [.saveUser u2], some (some "dev")⟩ ∧
      u2.private_key = some "npriv" ∧
      u2.password_hash = "nh" ∧
      u2.akey = "nk" ∧
      u2.security_stamp = "fresh" ∧
      u2.security_stamp ≠ "st" :=
  rotate_success_updates_user_last
    ⟨⟨[], ⟨0, 100000, none, none, "a@b", "nh", "nk"⟩, []⟩, ⟨"npriv", "pub"⟩, ⟨[], [], []⟩, "pw"⟩
    ⟨"u1", "a@b", "pw", "ak", some "priv", some "pub", 0, 100000, none, none, "st", none, none⟩
    "dev" (fun _ => Except.ok ()) ⟨[], [], [], [], []⟩ "fresh" (by decide) (by decide)

/-- C10 (amended): an id-less send or personal cipher entry passes the
completeness check (validation skips id-less entries), and in the apply phase
the `unwrap` of the missing id sits inside the per-element `find` closure: it
panics as soon as the user owns at least one send (resp. cipher), while with
zero owned entities the loop instead fails with the not-found error of that family;
an id-less folder entry is silently skipped in both validation and apply. -/
theorem rotate_idless_entries (sd : SendData) (cd : CipherData) (fd : UpdateFolderData)
    (restS : List SendData) (restC : List CipherData) (restF : List UpdateFolderData)
    (exS : List Send) (exC : List Cipher) (exF : List Folder)
    (hsd : sd.id = none) (hcd : cd.id = none) (hcdo : cd.organization_id = none)
    (hfd : fd.id = none) :
    (exS ≠ [] → applySends (sd :: restS) exS = .panicked unwrapNoneMsg []) ∧
    (applySends (sd :: restS) [] = .failed "Send doesn\x27t exist" []) ∧
    (exC ≠ [] → applyCiphers (cd :: restC) exC = .panicked unwrapNoneMsg []) ∧
    (applyCiphers (cd :: restC) [] = .failed "Cipher doesn\x27t exist" []) ∧
    (applyFolders (fd :: restF) exF = applyFolders restF exF) ∧
    (∀ au ak oh cs fs, providedSendIds ⟨au, ak, ⟨cs, fs, sd :: restS⟩, oh⟩
        = providedSendIds ⟨au, ak, ⟨cs, fs, restS⟩, oh⟩) ∧
    (∀ au ak oh fs ss, providedCipherIds ⟨au, ak, ⟨cd :: restC, fs, ss⟩, oh⟩
        = providedCipherIds ⟨au, ak, ⟨restC, fs, ss⟩, oh⟩) ∧
    (∀ au ak oh cs ss, providedFolderIds ⟨au, ak, ⟨cs, fd :: restF, ss⟩, oh⟩
        = providedFolderIds ⟨au, ak, ⟨cs, restF, ss⟩, oh⟩) := by
  refine ⟨?_, ?_, ?_, ?_, ?_, ?_, ?_, ?_⟩
  · intro hne
    cases exS with
    | nil => exact absurd rfl hne
    | cons a l => simp [applySends, hsd]
  · simp [applySends]
  · intro hne
    cases exC with
    | nil => exact absurd rfl hne
    | cons a l => simp [applyCiphers, hcdo, hcd]
  · simp [applyCiphers, hcdo]
  · simp [applyFolders, hfd]
  · intro au ak oh cs fs
    simp [providedSendIds, hsd]
  · intro au ak oh fs ss
    simp [providedCipherIds, hcdo, hcd]
  · intro au ak oh cs ss
    simp [providedFolderIds, hfd]

/-- C10 witness: with one existing send, an id-less send entry panics in the
apply phase. -/
theorem rotate_idless_entries_witness :
    applySends [(⟨none⟩ : SendData)] [(⟨"s1"⟩ : Send)] = .panicked unwrapNoneMsg [] :=
  (rotate_idless_entries ⟨none⟩ ⟨none, none⟩ ⟨none, "n"⟩ [] [] [] [⟨"s1"⟩] [] []
    rfl rfl rfl rfl).1 (by decide)

/-- C10 counterexample: for a user owning no sends, a validated payload whose
only send entry has no id does NOT panic in the apply phase; the loop fails
with the "Send doesn\x27t exist" error instead (the unwrap inside the `find`
closure is never evaluated over an empty list). -/
theorem rotate_idless_send_no_panic_cex :
    validate_keydata
      ⟨⟨[], ⟨0, 100000, none, none, "a@b", "nh", "nk"⟩, []⟩, ⟨"npriv", "pub"⟩,
        ⟨[], [], [⟨none⟩]⟩, "pw"⟩ [] [] [] [] []
      ⟨"u1", "a@b", "pw", "ak", some "priv", some "pub", 0, 100000, none, none, "st", none, none⟩
      = .ok () ∧
    post_rotatekey
      ⟨⟨[], ⟨0, 100000, none, none, "a@b", "nh", "nk"⟩, []⟩, ⟨"npriv", "pub"⟩,
        ⟨[], [], [⟨none⟩]⟩, "pw"⟩
      ⟨"u1", "a@b", "pw", "ak", some "priv", some "pub", 0, 100000, none, none, "st", none, none⟩
      "dev" (fun _ => Except.ok ()) ⟨[], [], [], [], []⟩ "fresh" =
      ⟨.err "Send doesn\x27t exist", [], none⟩ := by
  constructor
  · decide
  · decide

/-- An `AuthRequest` record (one passwordless-approval attempt). -/
structure AuthRequest where
  uuid : String
  user_uuid : String
  request_device_identifier : String
  device_type : Int
  request_ip : String
  access_code : String
  public_key : String
  enc_key : Option String
  master_password_hash : Option String
  approved : Option Bool
  response_device_id : Option String
  creation_date : Nat
  response_date : Option Nat
deriving DecidableEq, Repr

/-- Modelled from the spec: `AuthRequest::check_access_code` (in
`src/db/models/auth_request.rs`, outside the provided sources) is a
constant-time comparison of the supplied code against the stored code; its
result is equality. -/
def AuthRequest.check_access_code (a : AuthRequest) (code : String) : Bool :=
  a.access_code == code

/-- Modelled from the spec: `AuthRequest::find_by_uuid_and_user` returns the
stored record whose uuid matches and whose owning user matches. -/
def findByUuidAndUser (store : List AuthRequest) (rid uid : String) : Option AuthRequest :=
  store.find? (fun a => a.uuid == rid && a.user_uuid == uid)

/-- Modelled from the spec: `AuthRequest::find_by_uuid` returns the stored
record whose uuid matches. -/
def findByUuid (store : List AuthRequest) (rid : String) : Option AuthRequest :=
  store.find? (fun a => a.uuid == rid)

/-- Modelled from the spec: `save` persists the record under its uuid key. -/
def saveAuthRequest (store : List AuthRequest) (upd : AuthRequest) : List AuthRequest :=
  store.map (fun a => if a.uuid == upd.uuid then upd else a)

/-- Modelled from the spec: `delete` removes the record keyed by uuid. -/
def deleteAuthRequest (store : List AuthRequest) (rid : String) : List AuthRequest :=
  store.filter (fun a => a.uuid != rid)

/-- The `AuthResponseRequest` body of `put_auth_request`. -/
structure AuthResponseRequest where
  device_identifier : String
  key : String
  master_password_hash : Option String
  request_approved : Bool
deriving DecidableEq, Repr

/-- The `put_auth_request` handler (`accounts.rs:1408-1480`): the responding
user must own the request, the responding device must match the payload
device, and the request must not yet be terminal; approval updates and saves
the record, denial deletes it.  Returns the response record and the updated
store. -/
def put_auth_request (store : List AuthRequest) (rid : String) (data : AuthResponseRequest)
    (userUuid deviceUuid : String) (now : Nat) : Except String AuthRequest × List AuthRequest :=
  match findByUuidAndUser store rid userUuid with
  | none => (.error "AuthRequest doesn\x27t exist", store)
  | some a =>
    if deviceUuid ≠ data.device_identifier then
      (.error "AuthRequest doesn\x27t exist", store)
    else if a.approved.isSome then
      (.error "An authentication request with the same device already exists", store)
    else if data.request_approved then
      let upd := { a with
        approved := some data.request_approved
        enc_key := some data.key
        master_password_hash := data.master_password_hash
        response_device_id := some data.device_identifier
        response_date := some now }
      (.ok upd, saveAuthRequest store upd)
    else
      (.ok a, deleteAuthRequest store a.uuid)

/-- The `get_auth_request_response` handler (`accounts.rs:1482-1515`): an
unauthenticated poll by id and access code; device-type, IP and code are
checked against the recorded values and every failure yields the same
generic error. -/
def get_auth_request_response (store : List AuthRequest) (rid : String) (code : String)
    (deviceType : Int) (ip : String) : Except String AuthRequest :=
  match findByUuid store rid with
  | none => .error "AuthRequest doesn\x27t exist"
  | some a =>
    if a.device_type ≠ deviceType ∨ a.request_ip ≠ ip ∨ ¬ a.check_access_code code then
      .error "AuthRequest doesn\x27t exist"
    else .ok a

/-- Observable behaviour of `post_sstamp`: handler result, the device store
after the call, the user record after the call, and the logout broadcast. -/
structure SstampResult where
  result : Except String Unit
  devices : List Device
  user : User
  logout : Option (Option String)
deriving DecidableEq, Repr

/-- The `post_sstamp` handler (`accounts.rs:800-814`): after credential
validation it deletes all of the user\x27s devices, resets the security stamp,
saves the user and broadcasts a logout with no excluded device.
`credentialsValid` abstracts `PasswordOrOtpData::validate` (in
`src/api/mod.rs`, outside the provided sources). -/
def post_sstamp (user : User) (devices : List Device) (credentialsValid : Bool)
    (freshStamp : String) : SstampResult :=
  if ¬ credentialsValid then
    ⟨.error "Invalid password", devices, user, none⟩
  else
    let devices1 := devices.filter (fun d => d.user_uuid != user.uuid)
    let user1 := user.reset_security_stamp freshStamp
    ⟨.ok (), devices1, user1, some none⟩

/-- The configuration flags read by `password_hint`. -/
structure Config where
  password_hints_allowed : Bool
  mail_enabled : Bool
  show_password_hint : Bool
deriving DecidableEq, Repr

/-- The `NO_HINT` constant of `password_hint`. -/
def NO_HINT : String := "Sorry, you have no password hint..."

/-- Observable behaviour of `password_hint`: handler result, the sleep
performed (in milliseconds) if any, and whether a hint mail was sent. -/
structure HintResult where
  result : Except String Unit
  sleep_ms : Option Int
  mail_sent : Bool
deriving DecidableEq, Repr

/-- The `password_hint` handler (`accounts.rs:1053-1093`).  `userLookup` is
the result of `User::find_by_mail`; `delta` is the value drawn from
`rng.random_range(-100..=100)` (the source sets `delta = 100`), so the
non-existent-account path with mail enabled sleeps `1000 + delta`
milliseconds and returns success.  `mail::send_password_hint` (outside the
provided sources) is modelled per the spec as best-effort success. -/
def password_hint (cfg : Config) (userLookup : Option User) (delta : Int) : HintResult :=
  if ¬ cfg.password_hints_allowed ∨ (¬ cfg.mail_enabled ∧ ¬ cfg.show_password_hint) then
    ⟨.error "This server is not configured to provide password hints.", none, false⟩
  else
    match userLookup with
    | none =>
      if cfg.mail_enabled then
        ⟨.ok (), some (1000 + delta), false⟩
      else
        ⟨.error NO_HINT, none, false⟩
    | some user =>
      if cfg.mail_enabled then
        ⟨.ok (), none, true⟩
      else
        match user.password_hint with
        | some hint => ⟨.error ("Your password hint is: " ++ hint), none, false⟩
        | none => ⟨.error NO_HINT, none, false⟩

lemma findByUuidAndUser_some {store : List AuthRequest} {rid uid : String} {a : AuthRequest}
    (h : findByUuidAndUser store rid uid = some a) :
    a.uuid = rid ∧ a.user_uuid = uid ∧ a ∈ store := by
  have hp := List.find?_some h
  have hm := List.mem_of_find?_eq_some h
  simp only [Bool.and_eq_true, beq_iff_eq] at hp
  exact ⟨hp.1, hp.2, hm⟩

lemma findByUuidAndUser_delete (store : List AuthRequest) (rid uid2 : String) :
    findByUuidAndUser (deleteAuthRequest store rid) rid uid2 = none := by
  rcases h : findByUuidAndUser (deleteAuthRequest store rid) rid uid2 with _ | b
  · rfl
  · exfalso
    have hp := List.find?_some h
    have hm := List.mem_of_find?_eq_some h
    simp only [deleteAuthRequest, List.mem_filter, bne_iff_ne] at hm
    simp only [Bool.and_eq_true, beq_iff_eq] at hp
    exact hm.2 hp.1

lemma findByUuidAndUser_save_eq {store : List AuthRequest} {upd b : AuthRequest}
    {rid uid2 : String} (hupd : upd.uuid = rid)
    (h : findByUuidAndUser (saveAuthRequest store upd) rid uid2 = some b) :
    b = upd := by
  have hp := List.find?_some h
  have hm := List.mem_of_find?_eq_some h
  simp only [saveAuthRequest, List.mem_map] at hm
  obtain ⟨a, ha, hba⟩ := hm
  by_cases hc : (a.uuid == upd.uuid) = true
  · rw [if_pos hc] at hba
    exact hba.symm
  · rw [if_neg hc] at hba
    subst hba
    simp only [Bool.and_eq_true, beq_iff_eq] at hp
    exact absurd (by simp [beq_iff_eq, hp.1, hupd]) hc

lemma findByUuidAndUser_save_mem {upd : AuthRequest} :
    ∀ {store : List AuthRequest}, (∃ x ∈ store, x.uuid = upd.uuid) →
      findByUuidAndUser (saveAuthRequest store upd) upd.uuid upd.user_uuid = some upd := by
  intro store
  induction store with
  | nil => rintro ⟨x, hx, _⟩; cases hx
  | cons e tl ih =>
    intro hex
    by_cases hc : (e.uuid == upd.uuid) = true
    · have hc2 : e.uuid = upd.uuid := beq_iff_eq.mp hc
      simp [saveAuthRequest, findByUuidAndUser, hc2, List.find?_cons]
    · have hex2 : ∃ x ∈ tl, x.uuid = upd.uuid := by
        obtain ⟨x, hx, hxu⟩ := hex
        rcases List.mem_cons.mp hx with rfl | hxtl
        · exact absurd (by simp [beq_iff_eq, hxu]) hc
        · exact ⟨x, hxtl, hxu⟩
      have htl := ih hex2
      simp only [findByUuidAndUser, saveAuthRequest, List.map_cons, List.find?_cons] at htl ⊢
      rw [if_neg hc]
      simpa [hc] using htl

/-- C3 (amended): once a transition has been performed on an auth request,
every second `put_auth_request` on the same request id fails; after an
approval (by the same user, with a matching responding device) the failure is
the state-conflict error, but after a denial the record has been deleted, so
the failure is the generic not-found error instead. -/
theorem auth_request_single_shot (store : List AuthRequest) (rid : String)
    (d1 d2 : AuthResponseRequest) (uid dev1 uid2 dev2 : String) (t1 t2 : Nat)
    (r : AuthRequest) (store1 : List AuthRequest)
    (h1 : put_auth_request store rid d1 uid dev1 t1 = (.ok r, store1)) :
    (∃ m, (put_auth_request store1 rid d2 uid2 dev2 t2).1 = .error m) ∧
    (d1.request_approved = false →
      (put_auth_request store1 rid d2 uid2 dev2 t2).1 = .error "AuthRequest doesn\x27t exist") ∧
    (d1.request_approved = true → uid2 = uid → dev2 = d2.device_identifier →
      (put_auth_request store1 rid d2 uid2 dev2 t2).1 =
        .error "An authentication request with the same device already exists") := by
  rcases hfind : findByUuidAndUser store rid uid with _ | a
  · simp [put_auth_request, hfind] at h1
  simp only [put_auth_request, hfind] at h1
  by_cases hdev : dev1 ≠ d1.device_identifier
  · rw [if_pos hdev] at h1
    simp at h1
  rw [if_neg hdev] at h1
  by_cases happr : a.approved.isSome = true
  · rw [if_pos happr] at h1
    simp at h1
  rw [if_neg happr] at h1
  obtain ⟨ha1, ha2, hamem⟩ := findByUuidAndUser_some hfind
  by_cases hreq : d1.request_approved = true
  · rw [if_pos hreq] at h1
    rw [Prod.mk.injEq] at h1
    have hst : store1 = saveAuthRequest store
        { a with
          approved := some d1.request_approved
          enc_key := some d1.key
          master_password_hash := d1.master_password_hash
          response_device_id := some d1.device_identifier
          response_date := some t1 } := h1.2.symm
    set upd : AuthRequest :=
      { a with
        approved := some d1.request_approved
        enc_key := some d1.key
        master_password_hash := d1.master_password_hash
        response_device_id := some d1.device_identifier
        response_date := some t1 } with hupd_def
    have hupd_uuid : upd.uuid = rid := ha1
    have hterm : ∀ uid3 dev3 (d3 : AuthResponseRequest) t3,
        ∃ m, (put_auth_request store1 rid d3 uid3 dev3 t3).1 = .error m := by
      intro uid3 dev3 d3 t3
      rcases hf2 : findByUuidAndUser store1 rid uid3 with _ | b
      · exact ⟨"AuthRequest doesn\x27t exist", by simp [put_auth_request, hf2]⟩
      · have hb : b = upd := findByUuidAndUser_save_eq hupd_uuid (hst ▸ hf2)
        by_cases hd3 : dev3 ≠ d3.device_identifier
        · exact ⟨"AuthRequest doesn\x27t exist", by simp [put_auth_request, hf2, hd3]⟩
        · have hbsome : b.approved.isSome = true := by
            rw [hb]
            simp [hupd_def]
          exact ⟨"An authentication request with the same device already exists",
            by simp [put_auth_request, hf2, hd3, hbsome]⟩
    refine ⟨hterm uid2 dev2 d2 t2, ?_, ?_⟩
    · intro hfalse
      rw [hreq] at hfalse
      cases hfalse
    · intro _ huid2 hdev2
      have hf2 : findByUuidAndUser store1 rid uid2 = some upd := by
        rw [hst, huid2, ← ha1, ← ha2]
        have : a.user_uuid = upd.user_uuid := by simp [hupd_def]
        rw [this]
        exact findByUuidAndUser_save_mem ⟨a, hamem, by simp [hupd_def]⟩
      have hbsome : upd.approved.isSome = true := by simp [hupd_def]
      simp [put_auth_request, hf2, hdev2, hbsome]
  · rw [if_neg hreq] at h1
    rw [Prod.mk.injEq] at h1
    have hst : store1 = deleteAuthRequest store a.uuid := h1.2.symm
    have hnone : findByUuidAndUser store1 rid uid2 = none := by
      rw [hst, ha1]
      exact findByUuidAndUser_delete store rid uid2
    refine ⟨⟨"AuthRequest doesn\x27t exist", by simp [put_auth_request, hnone]⟩, ?_, ?_⟩
    · intro _
      simp [put_auth_request, hnone]
    · intro htrue
      exact absurd htrue hreq

/-- C3 witness: concrete approve-then-retry run hitting the state-conflict
error. -/
theorem auth_request_single_shot_witness :
    (∃ m, (put_auth_request
        (put_auth_request
          [⟨"r1", "u1", "dA", 0, "ip", "c", "pk", none, none, none, none, 0, none⟩]
          "r1" ⟨"dev1", "k", none, true⟩ "u1" "dev1" 5).2
        "r1" ⟨"dev1", "k2", none, true⟩ "u1" "dev1" 6).1 = .error m) ∧
    (put_auth_request
        (put_auth_request
          [⟨"r1", "u1", "dA", 0, "ip", "c", "pk", none, none, none, none, 0, none⟩]
          "r1" ⟨"dev1", "k", none, true⟩ "u1" "dev1" 5).2
        "r1" ⟨"dev1", "k2", none, true⟩ "u1" "dev1" 6).1 =
      .error "An authentication request with the same device already exists" := by
  have h := auth_request_single_shot
    [⟨"r1", "u1", "dA", 0, "ip", "c", "pk", none, none, none, none, 0, none⟩]
    "r1" ⟨"dev1", "k", none, true⟩ ⟨"dev1", "k2", none, true⟩ "u1" "dev1" "u1" "dev1" 5 6
    ⟨"r1", "u1", "dA", 0, "ip", "c", "pk", some "k", none, some true, some "dev1", 0, some 5⟩
    (put_auth_request
      [⟨"r1", "u1", "dA", 0, "ip", "c", "pk", none, none, none, none, 0, none⟩]
      "r1" ⟨"dev1", "k", none, true⟩ "u1" "dev1" 5).2
    (by decide)
  exact ⟨h.1, h.2.2 rfl rfl rfl⟩

/-- C3 counterexample: after a denial (which deletes the record), the second
transition attempt on the same request id fails with the generic not-found
error, not with the state-conflict error the claim names. -/
theorem auth_request_deny_then_retry_cex :
    (put_auth_request
        [⟨"r1", "u1", "dA", 0, "ip", "c", "pk", none, none, none, none, 0, none⟩]
        "r1" ⟨"dev1", "k", none, false⟩ "u1" "dev1" 5).1 =
      .ok ⟨"r1", "u1", "dA", 0, "ip", "c", "pk", none, none, none, none, 0, none⟩ ∧
    (put_auth_request
        (put_auth_request
          [⟨"r1", "u1", "dA", 0, "ip", "c", "pk", none, none, none, none, 0, none⟩]
          "r1" ⟨"dev1", "k", none, false⟩ "u1" "dev1" 5).2
        "r1" ⟨"dev1", "k2", none, false⟩ "u1" "dev1" 6).1 =
      .error "AuthRequest doesn\x27t exist" ∧
    "AuthRequest doesn\x27t exist" ≠
      "An authentication request with the same device already exists" := by
  refine ⟨by decide, by decide, by decide⟩

/-- C4 counterexample: `post_sstamp` with valid credentials DOES delete the
user\x27s `Device` records (the store loses the user\x27s only device), while
regenerating the security stamp. -/
theorem post_sstamp_deletes_devices_cex :
    (post_sstamp ⟨"u1", "a@b", "pw", "ak", none, none, 0, 100000, none, none, "st", none, none⟩
      [⟨"d1", "u1", 0⟩] true "st2").devices = [] ∧
    (post_sstamp ⟨"u1", "a@b", "pw", "ak", none, none, 0, 100000, none, none, "st", none, none⟩
      [⟨"d1", "u1", 0⟩] true "st2").result = .ok () ∧
    (post_sstamp ⟨"u1", "a@b", "pw", "ak", none, none, 0, 100000, none, none, "st", none, none⟩
      [⟨"d1", "u1", 0⟩] true "st2").user.security_stamp = "st2" := by
  refine ⟨by decide, by decide, by decide⟩

/-- C4 (amended): with valid credentials, `post_sstamp` regenerates the
security stamp (invalidating all previously issued session tokens) AND
deletes every `Device` record of the user before doing so, then broadcasts a
logout with no excluded device. -/
theorem post_sstamp_regenerates_and_deletes (user : User) (devices : List Device)
    (fresh : String) (hfresh : fresh ≠ user.security_stamp) :
    (post_sstamp user devices true fresh).result = .ok () ∧
    (post_sstamp user devices true fresh).user.security_stamp = fresh ∧
    (post_sstamp user devices true fresh).user.security_stamp ≠ user.security_stamp ∧
    (post_sstamp user devices true fresh).devices
      = devices.filter (fun d => d.user_uuid != user.uuid) ∧
    (∀ d ∈ (post_sstamp user devices true fresh).devices, d.user_uuid ≠ user.uuid) ∧
    (post_sstamp user devices true fresh).logout = some none := by
  refine ⟨?_, ?_, ?_, ?_, ?_, ?_⟩ <;>
    simp [post_sstamp, User.reset_security_stamp, hfresh, List.mem_filter]

/-- C4 amended-claim witness: concrete run with one foreign device kept. -/
theorem post_sstamp_regenerates_and_deletes_witness :
    (post_sstamp ⟨"u1", "a@b", "pw", "ak", none, none, 0, 100000, none, none, "st", none, none⟩
      [⟨"d1", "u1", 0⟩, ⟨"d2", "u2", 0⟩] true "st2").result = .ok () ∧
    (post_sstamp ⟨"u1", "a@b", "pw", "ak", none, none, 0, 100000, none, none, "st", none, none⟩
      [⟨"d1", "u1", 0⟩, ⟨"d2", "u2", 0⟩] true "st2").user.security_stamp = "st2" ∧
    (post_sstamp ⟨"u1", "a@b", "pw", "ak", none, none, 0, 100000, none, none, "st", none, none⟩
      [⟨"d1", "u1", 0⟩, ⟨"d2", "u2", 0⟩] true "st2").user.security_stamp ≠ "st" ∧
    (post_sstamp ⟨"u1", "a@b", "pw", "ak", none, none, 0, 100000, none, none, "st", none, none⟩
      [⟨"d1", "u1", 0⟩, ⟨"d2", "u2", 0⟩] true "st2").devices
      = List.filter (fun d => d.user_uuid != "u1") [⟨"d1", "u1", 0⟩, ⟨"d2", "u2", 0⟩] ∧
    (∀ d ∈ (post_sstamp ⟨"u1", "a@b", "pw", "ak", none, none, 0, 100000, none, none, "st",
        none, none⟩ [⟨"d1", "u1", 0⟩, ⟨"d2", "u2", 0⟩] true "st2").devices,
      d.user_uuid ≠ "u1") ∧
    (post_sstamp ⟨"u1", "a@b", "pw", "ak", none, none, 0, 100000, none, none, "st", none, none⟩
      [⟨"d1", "u1", 0⟩, ⟨"d2", "u2", 0⟩] true "st2").logout = some none :=
  post_sstamp_regenerates_and_deletes
    ⟨"u1", "a@b", "pw", "ak", none, none, 0, 100000, none, none, "st", none, none⟩
    [⟨"d1", "u1", 0⟩, ⟨"d2", "u2", 0⟩] "st2" (by decide)

/-- C6: in `get_auth_request_response`, a nonexistent request id, a recorded
device-type mismatch, a recorded source-IP mismatch and a wrong access code
all produce errors, and every error the handler can produce is the one
generic "AuthRequest doesn\x27t exist" string — nothing distinguishes the
failure causes. -/
theorem get_auth_request_response_uniform_error (store : List AuthRequest) (rid code : String)
    (dt : Int) (ip : String) :
    (findByUuid store rid = none →
      get_auth_request_response store rid code dt ip = .error "AuthRequest doesn\x27t exist") ∧
    (∀ a, findByUuid store rid = some a → a.device_type ≠ dt →
      get_auth_request_response store rid code dt ip = .error "AuthRequest doesn\x27t exist") ∧
    (∀ a, findByUuid store rid = some a → a.request_ip ≠ ip →
      get_auth_request_response store rid code dt ip = .error "AuthRequest doesn\x27t exist") ∧
    (∀ a, findByUuid store rid = some a → ¬ a.check_access_code code →
      get_auth_request_response store rid code dt ip = .error "AuthRequest doesn\x27t exist") ∧
    (∀ e, get_auth_request_response store rid code dt ip = .error e →
      e = "AuthRequest doesn\x27t exist") := by
  refine ⟨?_, ?_, ?_, ?_, ?_⟩
  · intro hnone
    simp [get_auth_request_response, hnone]
  · intro a hfind hdt
    simp [get_auth_request_response, hfind, hdt]
  · intro a hfind hip
    simp [get_auth_request_response, hfind, hip]
  · intro a hfind hcode
    simp [get_auth_request_response, hfind, hcode]
  · intro e he
    rcases hfind : findByUuid store rid with _ | a
    · simp only [get_auth_request_response, hfind] at he
      exact (Except.error.inj he).symm
    · simp only [get_auth_request_response, hfind] at he
      by_cases hcond : a.device_type ≠ dt ∨ a.request_ip ≠ ip ∨ ¬ a.check_access_code code = true
      · rw [if_pos hcond] at he
        exact (Except.error.inj he).symm
      · rw [if_neg hcond] at he
        cases he

/-- C6 witness: lookup of a nonexistent request id on an empty store yields
the generic error. -/
theorem get_auth_request_response_uniform_error_witness :
    get_auth_request_response [] "r1" "c" 0 "ip" = .error "AuthRequest doesn\x27t exist" :=
  (get_auth_request_response_uniform_error [] "r1" "c" 0 "ip").1 (by decide)

/-- C7: with hints allowed and mail delivery enabled, a password-hint lookup
for a nonexistent email sleeps `1000 + delta` milliseconds with
`delta ∈ [-100, 100]` (so the delay lies in `[900, 1100]`, nominally 1000ms
with bounded jitter) and returns success, content-identical to the
existing-email success path; with hints disallowed, or mail disabled and
hints not shown in error text, the lookup is refused with an error. -/
theorem password_hint_anti_enumeration (cfg : Config) (u : User) (delta : Int)
    (hd1 : -100 ≤ delta) (hd2 : delta ≤ 100) :
    (cfg.password_hints_allowed = true → cfg.mail_enabled = true →
      (password_hint cfg none delta = ⟨.ok (), some (1000 + delta), false⟩ ∧
        900 ≤ 1000 + delta ∧ 1000 + delta ≤ 1100 ∧
        (password_hint cfg none delta).result = (password_hint cfg (some u) delta).result)) ∧
    (cfg.password_hints_allowed = false ∨
        (cfg.mail_enabled = false ∧ cfg.show_password_hint = false) →
      password_hint cfg none delta =
        ⟨.error "This server is not configured to provide password hints.", none, false⟩) := by
  constructor
  · intro hallow hmail
    refine ⟨by simp [password_hint, hallow, hmail], by omega, by omega, ?_⟩
    simp [password_hint, hallow, hmail]
  · intro hoff
    rcases hoff with h | ⟨h1, h2⟩
    · simp [password_hint, h]
    · simp [password_hint, h1, h2]

/-- C7 witness: concrete configuration with mail enabled, at delta 100. -/
theorem password_hint_anti_enumeration_witness :
    password_hint ⟨true, true, false⟩ none 100 = ⟨.ok (), some 1100, false⟩ ∧
    (password_hint ⟨true, true, false⟩ none 100).result =
      (password_hint ⟨true, true, false⟩
        (some ⟨"u1", "a@b", "pw", "ak", none, none, 0, 100000, none, none, "st", none, none⟩)
        100).result := by
  have h := password_hint_anti_enumeration ⟨true, true, false⟩
    ⟨"u1", "a@b", "pw", "ak", none, none, 0, 100000, none, none, "st", none, none⟩
    100 (by decide) (by decide)
  obtain ⟨hres, _, _, hsame⟩ := h.1 rfl rfl
  exact ⟨hres, hsame⟩

end VW
